import Mathlib

/-!
Verification of the interview-coach server's session lifecycle and
evaluation pipeline, shallowly embedded from the Python sources:

* `server/data_manager.py`   — the `DataManager` class (session, transcript
  and result persistence),
* `server/services/interview_service.py`  — `submit_interview_response`,
* `server/services/evaluation_service.py` — per-answer scoring, session
  aggregation and result persistence,
* `server/services/question_service.py`   — question generation with the
  template fallback.

Conventions of the embedding:

* Wall-clock timestamps (`datetime.now()` / `.isoformat()` /
  `int(.timestamp())`) are passed in explicitly as `Nat` arguments named
  `now` or `ts`.
* Randomly generated UUIDs are passed in explicitly as `String` arguments.
* The sessions directory (one JSON file per id), the transcripts directory
  and the SQLite tables are modelled as association lists / row lists held
  in an explicit state record; a file write is an overwriting insert.
* Python `None` becomes `Option.none`; a fallible operation returns
  `Option`/`Except`; `raise` becomes `Except.error`.
-/

namespace InterviewCoach

/-- Fuel-driven big-endian decimal digit list of a positive natural
(the fuel argument only makes the recursion structural; `n` itself is
always enough fuel). -/
def natDecimalAux : Nat → Nat → List Char
  | 0, _ => []
  | fuel + 1, n =>
    if n = 0 then [] else natDecimalAux fuel (n / 10) ++ [Nat.digitChar (n % 10)]

/-- Decimal rendering of a natural number, the embedding of Python's
`str(int)` / f-string interpolation of an `int`. -/
def natDecimal (n : Nat) : String :=
  if n = 0 then "0" else (natDecimalAux n n).asString

/-- Association-list lookup, the embedding of reading the file named `k`
from a storage directory (or a SQLite point `SELECT ... WHERE id = k`). -/
def lookupA {α : Type} (l : List (String × α)) (k : String) : Option α :=
  (l.find? (fun p => p.1 == k)).map (fun p => p.2)

/-- Overwriting insert, the embedding of writing the file named `k`
(`open(..., "w")` truncates, so a second write replaces the first). -/
def insertA {α : Type} (l : List (String × α)) (k : String) (v : α) : List (String × α) :=
  (k, v) :: l.filter (fun p => p.1 != k)

/-- One entry of a session's `responses` list
(`data_manager.add_session_response` builds these dicts). -/
structure Response where
  question_index : Nat
  transcript_id : String
  submitted_at : Nat
  deriving DecidableEq

/-- A session record, i.e. the JSON document stored at
`data/sessions/{session_id}.json`.  The fields are the keys written by
`interview_service.start_interview_session` plus the keys stamped by
`DataManager.create_session`. -/
structure Session where
  session_id : String := ""
  candidate_name : String := ""
  job_role : Option String := none
  job_description : Option String := none
  questions : List String := []
  current_question : Nat := 0
  status : String := "active"
  question_source : String := "client"
  used_fallback : Bool := false
  responses : List Response := []
  created_at : Nat := 0
  updated_at : Nat := 0
  -- Metadata merged in by the candidate router
  -- (`routers/candidate.py:start_candidate_interview`) via `update_session`;
  -- absent (`none`) on sessions started directly.
  candidate_id : Option String := none
  candidate_username : Option String := none
  interview_id : Option String := none
  interview_title : Option String := none
  deriving DecidableEq

/-- A transcript record, i.e. the JSON document stored at
`data/transcripts/{transcript_id}.json`
(`DataManager.store_transcript` fills in the last four fields). -/
structure Transcript where
  transcript : String := ""
  audio_filename : Option String := none
  submitted_at : Option Nat := none
  transcript_id : String := ""
  session_id : String := ""
  question_index : Nat := 0
  created_at : Nat := 0
  deriving DecidableEq

/-- A row of the `practice_sessions` SQLite table
(`DataManager.create_practice_session` inserts these). -/
structure PracticeSession where
  session_id : String := ""
  user_id : String := ""
  module_id : String := ""
  mode : String := "coaching"
  deriving DecidableEq

/-- An updates dict passed to `DataManager.update_session`; `none` means
"key absent from the `updates` dict".  Besides the interview-session
fields, it carries the practice-row columns, because under Python's real
method resolution `add_session_response` builds its snapshot dict from a
`practice_sessions` row (see `DataManager.update_session` below).
`updated_at` is not represented: `update_session` unconditionally
overwrites it after the merge. -/
structure SessionUpdate where
  session_id : Option String := none
  candidate_name : Option String := none
  job_role : Option (Option String) := none
  job_description : Option (Option String) := none
  questions : Option (List String) := none
  current_question : Option Nat := none
  status : Option String := none
  question_source : Option String := none
  used_fallback : Option Bool := none
  responses : Option (List Response) := none
  created_at : Option Nat := none
  candidate_id : Option (Option String) := none
  candidate_username : Option (Option String) := none
  interview_id : Option (Option String) := none
  interview_title : Option (Option String) := none
  user_id : Option String := none
  module_id : Option String := none
  mode : Option String := none
  deriving DecidableEq

/-- The content of a session file written by `update_session` when its
session lookup hits: under real method resolution the lookup is the
practice-table `SELECT` (see the comment on `DataManager.get_session`),
so Python merges the updates dict over the practice row's column dict,
stamps `updated_at`, and writes the hybrid object to
`sessions/{id}.json`.  No code path in the running program ever reads a
session file back (the only file-backed reader is the shadowed first
`get_session`), so the model records such a write as its ingredients:
the row that was read, the updates dict, and the timestamp. -/
structure MergedSessionWrite where
  row : PracticeSession
  updates : SessionUpdate
  updated_at : Nat
  deriving DecidableEq

/-- The storage state reachable from a `DataManager` instance: the
file-backed sessions and transcripts directories (`mergedSessionFiles`
holding the hybrid session files written by `update_session`, see
`MergedSessionWrite`) and the `practice_sessions` table. -/
structure DMState where
  sessions : List (String × Session) := []
  transcripts : List (String × Transcript) := []
  practiceSessions : List (String × PracticeSession) := []
  mergedSessionFiles : List (String × MergedSessionWrite) := []
  deriving DecidableEq

namespace DataManager

/-- Embedding of `DataManager.create_session` (data_manager.py:326): stamp
the freshly generated id and the creation/update times into the session
dict and write it to `sessions/{id}.json`; return the id. -/
def create_session (st : DMState) (sessionData : Session) (freshId : String) (now : Nat) :
    DMState × String :=
  let s := { sessionData with session_id := freshId, created_at := now, updated_at := now }
  ({ st with sessions := insertA st.sessions freshId s }, freshId)

/-- Embedding of the FIRST `def get_session` in the class
(data_manager.py:363): read `sessions/{session_id}.json`, `None` when the
file does not exist. -/
def get_session_sessions (st : DMState) (sessionId : String) : Option Session :=
  lookupA st.sessions sessionId

/-- Embedding of the SECOND `def get_session` in the class
(data_manager.py:678): `SELECT * FROM practice_sessions WHERE session_id = ?`. -/
def get_session_practice (st : DMState) (sessionId : String) : Option PracticeSession :=
  lookupA st.practiceSessions sessionId

/-- The `get_session` attribute that Python method resolution actually
gives to `DataManager` instances: the class body defines `get_session`
twice, and the later definition (data_manager.py:678, the
practice-session lookup) silently replaces the earlier file-backed one
(data_manager.py:363). -/
def get_session (st : DMState) (sessionId : String) : Option PracticeSession :=
  get_session_practice st sessionId

/-- Embedding of `DataManager.update_session` (data_manager.py:376) under
Python's real method resolution: `self.get_session` (py:378) is the
practice-table lookup, so for every file-backed interview session the
lookup misses and the method returns `False` without writing anything.
When a practice row does exist under the id, Python merges the updates
dict over the row's column dict, stamps `updated_at`, writes the hybrid
object to `sessions/{id}.json` (recorded here as a `MergedSessionWrite`,
since nothing in the running program reads session files back), and
returns `True`. -/
def update_session (st : DMState) (sessionId : String) (updates : SessionUpdate) (now : Nat) :
    Bool × DMState :=
  match get_session st sessionId with
  | none => (false, st)
  | some row =>
    let w : MergedSessionWrite := { row := row, updates := updates, updated_at := now }
    (true, { st with mergedSessionFiles := insertA st.mergedSessionFiles sessionId w })

/-- The replace-in-place-or-append step written at
data_manager.py:495-517: the first entry whose `question_index` equals
the submitted one is overwritten at its list position; otherwise the new
entry is appended.  (Under real method resolution this code runs only
when `add_session_response` found a practice row, whose dict has no
`responses` key — so the list is always empty there and only the append
arm is reachable; for interview sessions the method returns `False`
before reaching it.) -/
def replaceOrAppend (rs : List Response) (r : Response) : List Response :=
  match rs.findIdx? (fun x => x.question_index == r.question_index) with
  | some i => rs.set i r
  | none => rs ++ [r]

/-- The session dict that `add_session_response` passes to
`update_session` when its lookup hit a practice row: the row's columns
plus the freshly built `responses` list. -/
def practiceSnapshot (row : PracticeSession) (responses : List Response) : SessionUpdate :=
  { session_id := some row.session_id, user_id := some row.user_id,
    module_id := some row.module_id, mode := some row.mode,
    responses := some responses }

/-- Embedding of `DataManager.add_session_response` (data_manager.py:479)
under Python's real method resolution: `self.get_session` (py:481) is the
practice-table lookup, so for every file-backed interview session it
returns `None` and the method returns `False` — the replace-or-append
logic never executes and no response is ever recorded.  When a practice
row exists, its dict has no `responses` key, so the list starts empty,
no existing entry is found, the new entry is appended, and the snapshot
goes through `update_session` (which re-reads the row and writes the
hybrid session file).  (The `int(question_index)` coercion always
succeeds here because the index is already a machine integer.) -/
def add_session_response (st : DMState) (sessionId : String) (questionIndex : Nat)
    (transcriptId : String) (now : Nat) : Bool × DMState :=
  match get_session st sessionId with
  | none => (false, st)
  | some row =>
    let responses : List Response := []
    let responseData : Response :=
      { question_index := questionIndex, transcript_id := transcriptId, submitted_at := now }
    update_session st sessionId
      (practiceSnapshot row (replaceOrAppend responses responseData)) now

/-- The transcript id built by `DataManager.store_transcript`
(data_manager.py:412): the f-string
`{session_id}_{question_index}_{int(datetime.now().timestamp())}` —
note the third component is the wall-clock time truncated to whole
seconds. -/
def mkTranscriptId (sessionId : String) (questionIndex ts : Nat) : String :=
  sessionId ++ "_" ++ natDecimal questionIndex ++ "_" ++ natDecimal ts

/-- Embedding of `DataManager.store_transcript` (data_manager.py:410):
stamp id/session/index/time into the payload, write
`transcripts/{transcript_id}.json`, return the id.  `ts` is the current
time in whole seconds. -/
def store_transcript (st : DMState) (sessionId : String) (questionIndex : Nat)
    (transcriptData : Transcript) (ts : Nat) : DMState × String :=
  let tid := mkTranscriptId sessionId questionIndex ts
  let d := { transcriptData with
              transcript_id := tid, session_id := sessionId,
              question_index := questionIndex, created_at := ts }
  ({ st with transcripts := insertA st.transcripts tid d }, tid)

/-- Embedding of `DataManager.get_transcript` (data_manager.py:428). -/
def get_transcript (st : DMState) (transcriptId : String) : Option Transcript :=
  lookupA st.transcripts transcriptId

end DataManager

/-- Python truthiness of an `Optional[str]`: `None` and the empty string
are falsy. -/
def pyFalsyOptStr : Option String → Bool
  | none => true
  | some s => s == ""

/-- The dict returned by `submit_interview_response`. -/
structure SubmitResult where
  message : String := "Response submitted successfully"
  transcript : String := ""
  transcript_id : String := ""
  session_status : String := "active"
  next_question_index : Nat := 0
  deriving DecidableEq

/-- Embedding of `interview_service.submit_interview_response`
(interview_service.py:109-168) under Python's real method resolution:
`data_manager.get_session` is the practice-table lookup (the later of the
two definitions, see `DataManager.get_session`), so the opening lookup
(py:125) misses for every file-backed interview session and the function
raises not-found before performing any write.  When a practice row does
exist under the id, the skip transcript is stored, `add_session_response`
succeeds (writing a hybrid session file), and the refreshed lookup
(py:151) again yields the practice row — a dict with no `"questions"`
key — so `len(session["questions"])` (py:156) raises `KeyError`; the
success return at py:162-168 is unreachable for every input.  The
returned state carries the side effects performed before the raise. -/
def submit_interview_response (st : DMState) (sessionId : String) (questionIndex : Nat)
    (transcriptIdArg : Option String) (now : Nat) : DMState × Except String SubmitResult :=
  match DataManager.get_session st sessionId with
  | none => (st, .error ("Interview session " ++ sessionId ++ " not found"))
  | some _row =>
    -- `if not transcript_id:` — synthesize a skipped-question transcript.
    let stTid :=
      if pyFalsyOptStr transcriptIdArg then
        let transcriptData : Transcript :=
          { transcript := "[Question was skipped by the candidate]",
            audio_filename := some "skipped", submitted_at := some now }
        DataManager.store_transcript st sessionId questionIndex transcriptData now
      else (st, transcriptIdArg.getD "")
    let st1 := stTid.1
    let tid := stTid.2
    match DataManager.get_transcript st1 tid with
    | none => (st1, .error ("Transcript " ++ tid ++ " not found"))
    | some _transcript =>
      match DataManager.add_session_response st1 sessionId questionIndex tid now with
      | (false, st2) => (st2, .error "Failed to add response to session")
      | (true, st2) =>
        match DataManager.get_session st2 sessionId with
        | none =>
          -- Unreachable: the practice row found at the top is still in the
          -- table.  (Python would raise TypeError subscripting None here.)
          (st2, .error "TypeError: NoneType is not subscriptable")
        | some _row2 =>
          -- `current_question = question_index + 1` (py:152) computes fine,
          -- but the refreshed session dict is a practice_sessions row with
          -- no "questions" key, so `len(session["questions"])` raises.
          (st2, .error "KeyError: questions")

/-- The session stored under `sid` after a state transition (convenience
accessor for the theorems below). -/
def sessionAt (st : DMState) (sid : String) : Option Session :=
  DataManager.get_session_sessions st sid

/-! ## Evaluator (`services/evaluation_service.py`)

Per-answer scores are Python floats; they are modelled as rationals.  The
only float-specific values Python could feed into the clamp
`max(1, min(10, score))` beyond ordinary numbers are `nan`/`inf`/`-inf`:
with CPython's argument-order `min`/`max` these clamp to `10`, `10` and
`1` respectively, all inside `[1, 10]`, so the rational model is sound
for the bounds claims.  The parsing done by Python's `float(...)` is
abstracted as an explicit `parseFloat` argument (`none` models the
`ValueError` branch); the theorems quantify over it. -/

/-- The dict returned by `evaluate_response_with_ai` /
`_fallback_scoring`.  The defaults are the initial values set before the
line-by-line parse (evaluation_service.py:81-84). -/
structure Evaluation where
  score : ℚ := 5
  feedback : String := "Standard response evaluated."
  strengths : String := "Response provided."
  areas_for_improvement : String := "Could provide more specific examples."
  deriving DecidableEq

/-- The empty-and-skip-sentinel normalisation at the top of
`evaluate_response_with_ai` (evaluation_service.py:30-33). -/
def normalizeTranscript (transcript : String) : String :=
  if transcript.trim == "" then "[No response provided]"
  else if transcript.trim == "SKIPPED" then "[Question was skipped by the candidate]"
  else transcript

/-- Python's `str.split()` with no separator: split on whitespace runs,
dropping empty pieces. -/
def pyWords (s : String) : List String :=
  (s.split Char.isWhitespace).filter (fun w => w ≠ "")

/-- Embedding of `evaluation_service._fallback_scoring`
(evaluation_service.py:116): deterministic word-count bucket scoring used
whenever the provider is unreachable or returns a non-200 status. -/
def fallback_scoring (transcript : String) : Evaluation :=
  let word_count := (pyWords transcript).length
  let sf : ℚ × String :=
    if word_count < 5 then (2, "Very brief response - needs more detail and examples.")
    else if word_count < 20 then
      (4, "Brief response - could benefit from more specific examples and details.")
    else if word_count < 50 then (6, "Adequate response length - good baseline answer.")
    else if word_count < 100 then (8, "Comprehensive response with good detail.")
    else (9, "Very detailed and thorough response.")
  { score := sf.1, feedback := sf.2,
    strengths := "Response provided with reasonable effort.",
    areas_for_improvement :=
      "Consider providing more specific examples and technical details." }

/-- One step of the label-prefix parse loop over the provider's text
(evaluation_service.py:86-99).  A successfully parsed score is clamped by
`max(1, min(10, score))`; a parse failure resets it to 5. -/
def parseEvalLine (parseFloat : String → Option ℚ) (e : Evaluation) (line : String) :
    Evaluation :=
  if line.startsWith "Score:" then
    match parseFloat ((line.replace "Score:" "").trim) with
    | some x => { e with score := max 1 (min 10 x) }
    | none => { e with score := 5 }
  else if line.startsWith "Feedback:" then
    { e with feedback := (line.replace "Feedback:" "").trim }
  else if line.startsWith "Strengths:" then
    { e with strengths := (line.replace "Strengths:" "").trim }
  else if line.startsWith "Areas for improvement:" then
    { e with areas_for_improvement := (line.replace "Areas for improvement:" "").trim }
  else e

/-- Embedding of `evaluation_service.evaluate_response_with_ai`
(evaluation_service.py:18-113).  `providerOutcome` is the result of the
scoring provider call: `none` models a raised exception
(unreachable/timeout), `some (status, text)` an HTTP response whose JSON
`response` field holds `text`.  The function is total: every failure path
degrades to `fallback_scoring`.  The question text only feeds the
provider prompt (already folded into `providerOutcome`), hence the
underscore. -/
def evaluate_response_with_ai (parseFloat : String → Option ℚ)
    (providerOutcome : Option (Nat × String)) (_question transcript : String) : Evaluation :=
  let t := normalizeTranscript transcript
  match providerOutcome with
  | none => fallback_scoring t
  | some (status, evaluation_text) =>
    if status == 200 then
      (evaluation_text.trim.splitOn "\n").foldl (parseEvalLine parseFloat) {}
    else fallback_scoring t

/-- The session-level aggregation of `evaluate_interview_session`
(evaluation_service.py:167-189): `total_score / len(scored_responses)`
when any response was scored, `0` otherwise. -/
def session_average (scores : List ℚ) : ℚ :=
  if scores.length = 0 then 0 else scores.sum / scores.length

/-! ## Result rows (`DataManager.upsert_result`) and finalization

`answers`/`feedback`/`scores` are stored in SQLite as `json.dumps` of the
corresponding Python values; since serialization is injective and no
claim inspects the serialized text, the rows hold the values themselves.
`round(x, 1)` on floats is modelled as rounding the rational to one
decimal place, and the f-string `{avg:.1f}` formatting inside the summary
string is abstracted by printing that rounded rational. -/

/-- One element of a Result's `answers` list
(evaluation_service.py:227-232). -/
structure ResultAnswer where
  question_index : Option Nat := none
  question : Option String := none
  transcript : Option String := none
  transcript_id : Option String := none
  deriving DecidableEq

/-- One element of a Result's `feedback` list
(evaluation_service.py:233-239). -/
structure ResultFeedback where
  question_index : Option Nat := none
  feedback : Option String := none
  strengths : Option String := none
  areas_for_improvement : Option String := none
  score : Option ℚ := none
  deriving DecidableEq

/-- One element of the `scores.details` list
(evaluation_service.py:252-258). -/
structure ScoreDetail where
  question_index : Option Nat := none
  score : Option ℚ := none
  deriving DecidableEq

/-- The `scores` object of a Result (evaluation_service.py:250-259). -/
structure ResultScores where
  average : ℚ := 0
  details : List ScoreDetail := []
  deriving DecidableEq

/-- The record dict handed to `DataManager.upsert_result`; `none` models
an absent key (`record.get(...)` then yields `None` / the default). -/
structure ResultRecord where
  id : Option String := none
  interview_id : Option String := none
  candidate_id : Option String := none
  candidate_username : Option String := none
  interview_title : Option String := none
  timestamp : Option Nat := none
  answers : List ResultAnswer := []
  feedback : List ResultFeedback := []
  scores : ResultScores := {}
  summary : Option String := none
  status : Option String := none
  deriving DecidableEq

/-- A row of the `results` SQLite table. -/
structure ResultRow where
  id : String := ""
  session_id : String := ""
  interview_id : Option String := none
  candidate_id : Option String := none
  candidate_username : Option String := none
  interview_title : Option String := none
  timestamp : Option Nat := none
  answers : List ResultAnswer := []
  feedback : List ResultFeedback := []
  scores : ResultScores := {}
  summary : Option String := none
  created_at : Nat := 0
  updated_at : Nat := 0
  status : String := "pending"
  deriving DecidableEq

namespace DataManager

/-- Embedding of `DataManager.upsert_result` (data_manager.py:231): if
any row with this `session_id` exists, rewrite the listed columns of
every such row (`UPDATE ... WHERE session_id = ?`) from the incoming
record — including `status`, taken as `record.get("status", "pending")`;
otherwise insert a fresh row with `status` defaulted the same way and
`created_at = updated_at = now`. -/
def upsert_result (rows : List ResultRow) (sessionId : String) (record : ResultRecord)
    (now : Nat) (freshId : String) : List ResultRow :=
  if rows.any (fun r => r.session_id == sessionId) then
    rows.map (fun row =>
      if row.session_id == sessionId then
        { row with
          interview_id := record.interview_id,
          candidate_id := record.candidate_id,
          candidate_username := record.candidate_username,
          interview_title := record.interview_title,
          timestamp := record.timestamp,
          answers := record.answers,
          feedback := record.feedback,
          scores := record.scores,
          summary := record.summary,
          updated_at := now,
          status := record.status.getD "pending" }
      else row)
  else
    rows ++ [{ id := record.id.getD freshId,
               session_id := sessionId,
               interview_id := record.interview_id,
               candidate_id := record.candidate_id,
               candidate_username := record.candidate_username,
               interview_title := record.interview_title,
               timestamp := record.timestamp,
               answers := record.answers,
               feedback := record.feedback,
               scores := record.scores,
               summary := record.summary,
               created_at := now,
               updated_at := now,
               status := record.status.getD "pending" }]

end DataManager

/-- An element of the `scored_responses` list built by
`evaluate_interview_session` (a response/transcript dict enriched with
the evaluation fields). -/
structure ScoredResponse where
  question_index : Option Nat := none
  question : Option String := none
  transcript : Option String := none
  transcript_id : Option String := none
  score : Option ℚ := none
  feedback : Option String := none
  strengths : Option String := none
  areas_for_improvement : Option String := none
  deriving DecidableEq

/-- The dict-based deduplication in `persist_completed_session`
(evaluation_service.py:216-219): key each response by its
`question_index`, keeping the last occurrence. -/
def dedupByIndex (rs : List ScoredResponse) : List (Option Nat × ScoredResponse) :=
  rs.foldl (fun acc r =>
    if acc.any (fun p => p.1 == r.question_index) then
      acc.map (fun p => if p.1 == r.question_index then (r.question_index, r) else p)
    else acc ++ [(r.question_index, r)]) []

/-- Key order used by `sorted(unique_responses.keys())`.  (Python would
raise comparing `None` with an `int`; the model orders `none` first,
which no claim exercises.) -/
def keyLe (a b : Option Nat) : Bool :=
  match a, b with
  | none, _ => true
  | some _, none => false
  | some x, some y => x ≤ y

/-- Rounding to one decimal place, the model of Python's `round(x, 1)`.
(Python floats round half to even; no claim depends on tie behaviour.) -/
def round1 (q : ℚ) : ℚ := (round (q * 10) : ℤ) / 10

/-- Embedding of `evaluation_service.persist_completed_session`
(evaluation_service.py:206-263): deduplicate the scored responses by
question index (keeping the latest), sort ascending, build the Result
record — with `status = "completed"` — and upsert it keyed by the
session id. -/
def persist_completed_session (rows : List ResultRow) (sessionId : String) (session : Session)
    (scored : List ScoredResponse) (average : ℚ) (now : Nat) (freshId : String) :
    List ResultRow :=
  let sorted_responses :=
    ((dedupByIndex scored).mergeSort (fun a b => keyLe a.1 b.1)).map (fun p => p.2)
  let answers := sorted_responses.map (fun r =>
    ({ question_index := r.question_index, question := r.question,
       transcript := r.transcript, transcript_id := r.transcript_id } : ResultAnswer))
  let feedback := sorted_responses.map (fun r =>
    ({ question_index := r.question_index, feedback := r.feedback,
       strengths := r.strengths, areas_for_improvement := r.areas_for_improvement,
       score := r.score } : ResultFeedback))
  let record : ResultRecord :=
    { candidate_id := session.candidate_id,
      candidate_username := session.candidate_username,
      interview_id := session.interview_id,
      interview_title := session.interview_title,
      timestamp := some now,
      answers := answers,
      feedback := feedback,
      scores := { average := round1 average,
                  details := scored.map (fun r =>
                    ({ question_index := r.question_index, score := r.score } : ScoreDetail)) },
      summary := some ("Interview completed with average score of " ++
        toString (round1 average) ++ "/10"),
      status := some "completed" }
  DataManager.upsert_result rows sessionId record now freshId

/-! ## Question Source (`services/question_service.py`)

Only the code that executes when the generative provider is down is
embedded: `build_questions_payload` probes the provider first
(question_service.py:221-233) and any probe/transport failure raises
`RuntimeError` before the generation branch runs, landing in the
`except` handler (question_service.py:352-366), so the LLM branch is
dead code under the always-erroring-provider hypothesis of claim C9. -/

/-- The merged stop-word set (`STOP_WORDS` updated with
`EXTENDED_STOP_WORDS`, question_service.py:20-37). -/
def STOP_WORDS : List String :=
  ["the", "and", "with", "from", "this", "that", "have", "will", "your",
   "about", "using", "experience", "skills", "team", "work", "role",
   "responsibilities", "ability", "strong", "knowledge", "prior", "must",
   "should", "high", "level", "for", "collaborate", "understanding", "tools",
   "software", "across", "years", "such", "including", "support", "business",
   "drive", "create", "range", "excellent", "communication", "solve",
   "build", "focus", "design", "deliver", "manage", "ensure",
   "are", "is", "am", "be", "being", "been", "a", "an", "in", "on", "at",
   "by", "to", "of", "we", "you", "they", "job", "position", "looking",
   "seeking", "candidate", "hire", "hiring", "apply", "applicant", "our",
   "we're", "we've"]

/-- Continuation characters of the token regex
`[A-Za-z][A-Za-z0-9+\-#]*` (question_service.py:64). -/
def isTokCont (c : Char) : Bool :=
  (c.isAlpha || c.isDigit) || c = '+' || c = '-' || c = '#'

/-- Leftmost-longest matching of the token regex over a character list,
the model of `re.findall(r"[A-Za-z][A-Za-z0-9+\-#]*", text)`. -/
def tokenizeChars (l : List Char) : List String :=
  match l with
  | [] => []
  | c :: cs =>
    if c.isAlpha then
      ((c :: cs.takeWhile isTokCont).asString) :: tokenizeChars (cs.dropWhile isTokCont)
    else tokenizeChars cs
termination_by l.length
decreasing_by
  · have h2 : (cs.dropWhile isTokCont).length ≤ cs.length := by
      induction cs with
      | nil => simp
      | cons a t ih =>
        by_cases h : isTokCont a
        · simp only [List.dropWhile, h]
          exact Nat.le_succ_of_le ih
        · simp [List.dropWhile, h]
    exact Nat.lt_succ_of_le h2
  · simp

/-- The accumulation loop of `extract_keywords`
(question_service.py:66-72): skip short and stop-word tokens, append
unseen tokens, stop as soon as `max_keywords` are collected. -/
def keywordLoop (maxKeywords : Nat) : List String → List String → List String
  | [], acc => acc
  | t :: ts, acc =>
    if t.length < 3 || STOP_WORDS.contains t then keywordLoop maxKeywords ts acc
    else
      let acc' := if acc.contains t then acc else acc ++ [t]
      if maxKeywords ≤ acc'.length then acc' else keywordLoop maxKeywords ts acc'

/-- Embedding of `question_service.extract_keywords`
(question_service.py:60-73). -/
def extract_keywords (text : Option String) (maxKeywords : Nat := 8) : List String :=
  match text with
  | none => []
  | some t =>
    if t == "" then []
    else keywordLoop maxKeywords (tokenizeChars t.toLower.data) []

/-- A question record produced by the Question Source (the dicts built in
question_service.py:146-171 with keys `question`, `index`, `type`,
`scoring_criteria`). -/
structure QuestionRecord where
  question : String
  index : Nat
  type : String
  scoring_criteria : String := "Evaluate based on clarity, depth, and relevance"
  deriving DecidableEq

/-- The keyword-parameterized technical templates `TEMPLATES_KEYWORD`
(question_service.py:40-48); each is `template.format(role=..., keyword=...)`
as a function of the two substituted strings. -/
def TEMPLATES_KEYWORD : List (String → String → String) :=
  [fun _role keyword =>
     "Can you walk me through a recent project where you applied " ++ keyword ++ "?",
   fun _role keyword =>
     "How do you stay current with best practices around " ++ keyword ++ "?",
   fun _role keyword =>
     "Describe a complex challenge involving " ++ keyword ++ " and how you solved it.",
   fun role keyword =>
     "How would you leverage " ++ keyword ++ " to deliver value as a " ++ role ++ "?",
   fun _role keyword =>
     "Tell me about a time you led a team while focusing on " ++ keyword ++ ".",
   fun _role keyword =>
     "What metrics do you track to measure success when working with " ++ keyword ++ "?",
   fun _role keyword =>
     "How do you mentor teammates who are newer to " ++ keyword ++ "?"]

/-- The role-parameterized behavioral templates `TEMPLATES_GENERAL`
(question_service.py:51-57). -/
def TEMPLATES_GENERAL : List (String → String) :=
  [fun role => "What excites you most about contributing as a " ++ role ++ "?",
   fun _role => "How do you prioritize competing deadlines in a fast-paced environment?",
   fun _role =>
     "Describe how you ensure communication stays clear across cross-functional partners.",
   fun role =>
     "Walk me through your approach to planning the first 90 days in this " ++ role ++
       " role.",
   fun _role => "How do you evaluate whether a solution truly solved the original problem?"]

/-- The body of the trailing `while len(questions) < num_questions` fill
loop of `generate_questions_locally` (question_service.py:165-172),
driven by an explicit fuel so the recursion is structural; each iteration
grows the list by one, so `numQuestions - acc.length` steps of fuel make
the loop run to completion.  `kws` is nonempty at every call site, so the
`getD` default is never read. -/
def fillQuestionsAux (kws : List String) (numQuestions : Nat) :
    Nat → List QuestionRecord → List QuestionRecord
  | 0, acc => acc
  | fuel + 1, acc =>
    if acc.length < numQuestions then
      fillQuestionsAux kws numQuestions fuel (acc ++
        [{ question := "What best practices have you developed around " ++
             (kws.getD (acc.length % kws.length) "") ++ "?",
           index := acc.length, type := "technical" }])
    else acc

/-- The `while len(questions) < num_questions` fill loop of
`generate_questions_locally` (question_service.py:165-172). -/
def fillQuestions (kws : List String) (numQuestions : Nat) (acc : List QuestionRecord) :
    List QuestionRecord :=
  fillQuestionsAux kws numQuestions (numQuestions - acc.length) acc

/-- Embedding of `question_service.generate_questions_locally`
(question_service.py:125-174): template-based fallback generation. -/
def generate_questions_locally (job_description : Option String) (num_questions : Nat)
    (job_role : Option String) : List QuestionRecord :=
  let role_phrase := if pyFalsyOptStr job_role then "this role" else job_role.getD ""
  let kws0 := extract_keywords job_description
  let kws1 :=
    if kws0.isEmpty && !(pyFalsyOptStr job_role) then extract_keywords job_role else kws0
  let kws :=
    if kws1.isEmpty then
      ["problem solving", "stakeholder communication", "continuous improvement"]
    else kws1
  let step1 := TEMPLATES_KEYWORD.foldl (fun acc t =>
    if num_questions ≤ acc.length then acc
    else acc ++ [{ question := t role_phrase (kws.getD (acc.length % kws.length) ""),
                   index := acc.length, type := "technical" }]) []
  let step2 := TEMPLATES_GENERAL.foldl (fun acc t =>
    if num_questions ≤ acc.length then acc
    else acc ++ [{ question := t role_phrase, index := acc.length, type := "behavioral" }])
    step1
  (fillQuestions kws num_questions step2).take num_questions

/-- Embedding of `GenerateRequest.desired_question_count`
(models/schemas.py:49-52): `min(num_questions, 20)` when a positive count
is supplied, else 5.  (The guard `self.num_questions and
self.num_questions > 0` makes `None`, `0` and negative counts all fall
through to 5.) -/
def desired_question_count (num_questions : Option Int) : Int :=
  match num_questions with
  | some n => if 0 < n then min n 20 else 5
  | none => 5

/-- Embedding of `GenerateRequest.formatted_messages`
(models/schemas.py:34-47), with message dicts reduced to their `content`
strings (the only part later code reads). -/
def formatted_messages (messages : Option (List String)) (prompt : Option String) :
    List String :=
  if messages.getD [] ≠ [] then messages.getD []
  else if !(pyFalsyOptStr prompt) then [prompt.getD ""]
  else []

/-- Python's `s.strip(chars)` for an explicit character set. -/
def stripChars (s : String) (cs : List Char) : String :=
  (((s.data.dropWhile (fun c => cs.contains c)).reverse.dropWhile
      (fun c => cs.contains c)).reverse).asString

/-- Embedding of `question_service.infer_job_description`
(question_service.py:177-195).  (`lower()` is length-preserving for the
character-wise model, so the index found in the lowered text is used to
slice the original, as the source does.) -/
def infer_job_description (prompt : Option String) (messages : List String) :
    Option String :=
  let text_blocks := (if pyFalsyOptStr prompt then [] else [prompt.getD ""]) ++ messages
  let combined := String.intercalate "\n" text_blocks
  if combined == "" then none
  else
    let lowered := combined.toLower
    let marker := "job description"
    match lowered.splitOn marker with
    | [] => some combined.trim
    | [_] => some combined.trim
    | first :: _ =>
      let snippet := combined.drop (first.length + marker.length)
      let snippet2 := (snippet.splitOn "Provide only").headD snippet
      let stripped := stripChars snippet2 [' ', ':', '\n']
      if stripped == "" then some combined.trim else some stripped

/-- The payload dict returned by `build_questions_payload`
(fallback branch, question_service.py:357-366). -/
structure QuestionsPayload where
  questions : List QuestionRecord
  source : String
  model : String
  content : String
  raw : String
  timestamp : Nat
  used_fallback : Bool
  fallback_reason : Option String := none
  deriving DecidableEq

/-- Embedding of `question_service.build_questions_payload`
(question_service.py:198-366) under an always-erroring generative
provider: the availability probe raises, so control reaches the `except`
handler, which re-raises only when both the (possibly inferred) job
description and the job role are `None`, and otherwise returns the
template fallback payload.  `reason` is the stringified provider error
captured as `fallback_reason`. -/
def build_questions_payload_provider_down (messagesArg : Option (List String))
    (prompt job_description job_role : Option String) (num_questions : Option Int)
    (modelName : String) (reason : String) (now : Nat) :
    Except String QuestionsPayload :=
  let messages := formatted_messages messagesArg prompt
  let jd :=
    if pyFalsyOptStr job_description then infer_job_description prompt messages
    else job_description
  let n := desired_question_count num_questions
  if n ≤ 0 then .error "Number of questions must be greater than zero"
  else if pyFalsyOptStr jd && pyFalsyOptStr job_role && messages.isEmpty &&
      pyFalsyOptStr prompt then
    .error "Either messages/prompt or job_description/job_role must be provided"
  else if jd == none && job_role == none then
    .error "Job description or job role is required to generate questions"
  else
    let fallback_questions := generate_questions_locally jd n.toNat job_role
    .ok { questions := fallback_questions,
          source := "fallback",
          model := modelName,
          content := String.intercalate "\n" (fallback_questions.map (fun q => q.question)),
          raw := if !(pyFalsyOptStr jd) then jd.getD ""
                 else if !(pyFalsyOptStr job_role) then job_role.getD "" else "",
          timestamp := now,
          used_fallback := true,
          fallback_reason := some reason }

/-! ## Derived abbreviations and concrete fixtures used by the theorems -/

/-- Run a sequence of skip submissions (`transcript_id = None`), each with
its own `question_index` and wall-clock second, threading the returned
state from call to call (a raised call still hands its state — with
whatever side effects happened before the raise — to the next one). -/
def submitSkipSeq (st : DMState) (sid : String) : List (Nat × Nat) → DMState
  | [] => st
  | (qi, now) :: rest =>
    submitSkipSeq (submit_interview_response st sid qi none now).1 sid rest

/-- The stored `current_question` counter (convenience accessor). -/
def currOf (st : DMState) (sid : String) : Option Nat :=
  (sessionAt st sid).map (fun s => s.current_question)

/-- The stored session status (convenience accessor). -/
def statusOf (st : DMState) (sid : String) : Option String :=
  (sessionAt st sid).map (fun s => s.status)

/-- The stored response list (convenience accessor). -/
def responsesOf (st : DMState) (sid : String) : Option (List Response) :=
  (sessionAt st sid).map (fun s => s.responses)

/-- The error message raised by a submit call (`none` when it returned). -/
def submitError (p : DMState × Except String SubmitResult) : Option String :=
  match p.2 with
  | .error e => some e
  | .ok _ => none

/-- The count of distinct question indices that have a recorded response
(the quantity claim C3 compares the progress counter against). -/
def distinctRespIndices (rs : List Response) : List Nat :=
  (rs.map (fun r => r.question_index)).dedup

/-- The number of questions in a Question Source payload (`none` when the
call raised). -/
def questionCountOf : Except String QuestionsPayload → Option Nat
  | .ok p => some p.questions.length
  | .error _ => none

/-- Fixture: the session dict built by `start_interview_session` for a
three-question interview. -/
def exSession3 : Session :=
  { candidate_name := "Alice", questions := ["q0", "q1", "q2"] }

/-- Fixture: storage state after `create_session` stored `exSession3`
under id `"sid"` at time 100. -/
def exState3 : DMState := (DataManager.create_session {} exSession3 "sid" 100).1

/-- Fixture: a two-question session stored under `"sid"`. -/
def exState2 : DMState :=
  (DataManager.create_session {} { candidate_name := "Bob", questions := ["q0", "q1"] }
    "sid" 100).1

/-- Fixture: a stored three-question session that already carries status
`completed` with the progress counter at 3. -/
def exCompleted3 : DMState :=
  (DataManager.create_session {}
    { candidate_name := "Carol", questions := ["q0", "q1", "q2"],
      current_question := 3, status := "completed",
      responses := [{ question_index := 0, transcript_id := "t0", submitted_at := 90 },
                    { question_index := 1, transcript_id := "t1", submitted_at := 91 },
                    { question_index := 2, transcript_id := "t2", submitted_at := 92 }] }
    "sid" 100).1

/-- Fixture: a results table holding one row for session `"s"` whose
status an administrator has set to `"reviewed"`. -/
def exReviewedRows : List ResultRow :=
  [{ id := "r1", session_id := "s", status := "reviewed", created_at := 7, updated_at := 8 }]

/-! ## Store lemmas -/

theorem lookupA_insertA_self {α : Type} (l : List (String × α)) (k : String) (v : α) :
    lookupA (insertA l k v) k = some v := by
  simp [lookupA, insertA, List.find?]

theorem find?_filter_ne {α : Type} (l : List (String × α)) (k k' : String) (h : k ≠ k') :
    List.find? (fun p => p.1 == k') (l.filter (fun p => p.1 != k)) =
      List.find? (fun p => p.1 == k') l := by
  induction l with
  | nil => rfl
  | cons p t ih =>
    by_cases hpk : p.1 = k
    · have h1 : (p.1 != k) = false := by simp [hpk]
      have h2 : (p.1 == k') = false := by simp [hpk]; exact h
      simp [List.filter, h1, List.find?, h2, ih]
    · have h1 : (p.1 != k) = true := by simp [hpk]
      by_cases hpk' : p.1 = k'
      · have h2 : (p.1 == k') = true := by simp [hpk']
        simp [List.filter, h1, List.find?, h2]
      · have h2 : (p.1 == k') = false := by simp [hpk']
        simp [List.filter, h1, List.find?, h2, ih]

theorem lookupA_insertA_ne {α : Type} (l : List (String × α)) (k k' : String) (v : α)
    (h : k ≠ k') : lookupA (insertA l k v) k' = lookupA l k' := by
  have hbeq : (k == k') = false := by simpa using h
  simp only [lookupA, insertA, List.find?, hbeq, find?_filter_ne l k k' h]

/-! ## Submit-flow lemmas (real method resolution) -/

theorem store_transcript_sessions (st : DMState) (sid : String) (qi : Nat) (d : Transcript)
    (ts : Nat) : (DataManager.store_transcript st sid qi d ts).1.sessions = st.sessions := rfl

theorem insertA_insertA {α : Type} (l : List (String × α)) (k : String) (v v' : α) :
    insertA (insertA l k v) k v' = insertA l k v' := by
  simp [insertA, List.filter_filter]

theorem update_session_miss (st : DMState) (sid : String) (updates : SessionUpdate)
    (now : Nat) (hmiss : lookupA st.practiceSessions sid = none) :
    DataManager.update_session st sid updates now = (false, st) := by
  simp [DataManager.update_session, DataManager.get_session,
    DataManager.get_session_practice, hmiss]

theorem add_session_response_miss (st : DMState) (sid : String) (qi : Nat)
    (tid : String) (now : Nat) (hmiss : lookupA st.practiceSessions sid = none) :
    DataManager.add_session_response st sid qi tid now = (false, st) := by
  simp [DataManager.add_session_response, DataManager.get_session,
    DataManager.get_session_practice, hmiss]

theorem submit_miss_eq (st : DMState) (sid : String) (qi now : Nat)
    (tidArg : Option String) (hmiss : lookupA st.practiceSessions sid = none) :
    submit_interview_response st sid qi tidArg now =
      (st, .error ("Interview session " ++ sid ++ " not found")) := by
  simp [submit_interview_response, DataManager.get_session,
    DataManager.get_session_practice, hmiss]

theorem submitSkipSeq_miss (sid : String) (subs : List (Nat × Nat)) :
    ∀ st : DMState, lookupA st.practiceSessions sid = none →
      submitSkipSeq st sid subs = st := by
  induction subs with
  | nil => intro st _; rfl
  | cons hd rest ih =>
    intro st hmiss
    obtain ⟨qi, now⟩ := hd
    rw [submitSkipSeq, submit_miss_eq st sid qi now none hmiss]
    exact ih st hmiss


/-! ## Claims -/

/-- C1: the Session Store round trip fails — `create_session` writes the
stamped record (status `active`, index 0, empty response list) to the
sessions directory, but the `get_session` name that Python method
resolution leaves on `DataManager` is the later duplicate definition,
which queries the `practice_sessions` table and therefore returns
not-found for every freshly created interview session, while the shadowed
file-backed lookup would have returned the stored record. -/
theorem C1_session_store_round_trip (st : DMState) (sessionData : Session)
    (freshId : String) (now : Nat)
    (hfresh : lookupA st.practiceSessions freshId = none) :
    DataManager.get_session (DataManager.create_session st sessionData freshId now).1
      (DataManager.create_session st sessionData freshId now).2 = none ∧
    DataManager.get_session_sessions (DataManager.create_session st sessionData freshId now).1
      (DataManager.create_session st sessionData freshId now).2 =
      some { sessionData with session_id := freshId, created_at := now, updated_at := now } := by
  constructor
  · simpa [DataManager.get_session, DataManager.get_session_practice,
      DataManager.create_session] using hfresh
  · simp [DataManager.get_session_sessions, DataManager.create_session, lookupA_insertA_self]

/-- Witness for C1 at a concrete input: a fresh store, a three-question
session, id `"sid"`, creation time 100. -/
theorem C1_session_store_round_trip_witness :
    DataManager.get_session (DataManager.create_session {} exSession3 "sid" 100).1
      (DataManager.create_session {} exSession3 "sid" 100).2 = none ∧
    DataManager.get_session_sessions (DataManager.create_session {} exSession3 "sid" 100).1
      (DataManager.create_session {} exSession3 "sid" 100).2 =
      some { exSession3 with session_id := "sid", created_at := 100, updated_at := 100 } :=
  C1_session_store_round_trip {} exSession3 "sid" 100 rfl

/-- C10 (amended): the session status never transitions from `completed`
back to `active` — degenerately so: under Python's real method
resolution every submit call on a file-backed interview session raises
not-found (C1's shadowed `get_session`) and leaves the stored session,
its status and its progress counter untouched; a later resubmission for
an earlier index therefore keeps status `completed`, but — contrary to
the claim's final clause — it does not rewrite the progress counter
(see the counterexample). -/
theorem C10_status_never_regresses (st : DMState) (sid : String)
    (subs : List (Nat × Nat)) (hmiss : lookupA st.practiceSessions sid = none) :
    statusOf (submitSkipSeq st sid subs) sid = statusOf st sid ∧
    currOf (submitSkipSeq st sid subs) sid = currOf st sid ∧
    (statusOf st sid = some "completed" →
      statusOf (submitSkipSeq st sid subs) sid = some "completed") := by
  rw [submitSkipSeq_miss sid subs st hmiss]
  exact ⟨rfl, rfl, fun h => h⟩

/-- Witness for C10 at a concrete input: the stored completed
three-question session under a resubmission of index 0. -/
theorem C10_status_never_regresses_witness :
    statusOf (submitSkipSeq exCompleted3 "sid" [(0, 101)]) "sid" =
      statusOf exCompleted3 "sid" ∧
    currOf (submitSkipSeq exCompleted3 "sid" [(0, 101)]) "sid" =
      currOf exCompleted3 "sid" ∧
    (statusOf exCompleted3 "sid" = some "completed" →
      statusOf (submitSkipSeq exCompleted3 "sid" [(0, 101)]) "sid" = some "completed") :=
  C10_status_never_regresses exCompleted3 "sid" [(0, 101)] (by decide)

/-- Counterexample to C10's final clause as stated: resubmitting index 0
on the stored completed session keeps status `completed` (as claimed) but
does NOT rewrite the progress counter — the call raises not-found and the
counter stays 3 instead of becoming 0 + 1. -/
theorem C10_counterexample :
    submitError (submit_interview_response exCompleted3 "sid" 0 none 101) =
      some "Interview session sid not found" ∧
    statusOf (submitSkipSeq exCompleted3 "sid" [(0, 101)]) "sid" = some "completed" ∧
    currOf (submitSkipSeq exCompleted3 "sid" [(0, 101)]) "sid" = some 3 ∧
    (3 : Nat) ≠ 0 + 1 := by decide

/-- C2 (amended): no submit call ever recomputes the progress counter —
under Python's real method resolution every `submit_interview_response`
on a file-backed interview session raises not-found (C1's shadowed
`get_session`) and returns the state unchanged, so after any sequence of
submit calls, in any order and with any duplicates, `current_question`
still holds its original value: it never decreases, but it also never
becomes `1 + max(question_index submitted)`. -/
theorem C2_submit_never_recomputes (st : DMState) (sid : String) (qi now : Nat)
    (tidArg : Option String) (subs : List (Nat × Nat))
    (hmiss : lookupA st.practiceSessions sid = none) :
    submit_interview_response st sid qi tidArg now =
      (st, .error ("Interview session " ++ sid ++ " not found")) ∧
    submitSkipSeq st sid subs = st ∧
    currOf (submitSkipSeq st sid subs) sid = currOf st sid := by
  refine ⟨submit_miss_eq st sid qi now tidArg hmiss,
    submitSkipSeq_miss sid subs st hmiss, ?_⟩
  rw [submitSkipSeq_miss sid subs st hmiss]

/-- Witness for C2 at a concrete input: the stored three-question session
with submissions for indices 1 then 0. -/
theorem C2_submit_never_recomputes_witness :
    submit_interview_response exState3 "sid" 1 none 101 =
      (exState3, .error ("Interview session " ++ "sid" ++ " not found")) ∧
    submitSkipSeq exState3 "sid" [(1, 101), (0, 102)] = exState3 ∧
    currOf (submitSkipSeq exState3 "sid" [(1, 101), (0, 102)]) "sid" =
      currOf exState3 "sid" :=
  C2_submit_never_recomputes exState3 "sid" 1 101 none [(1, 101), (0, 102)] (by decide)

/-- Counterexample to C2 as stated: on the stored three-question session,
submitting question 1 and then question 0 leaves `current_question` at 0
(both calls raise not-found through the shadowed `get_session`), which
differs from the claimed `1 + max(question_index submitted) = 2`; and no
call recomputes the counter as `max(current, question_index + 1)` — the
first call alone would already have had to set it to 2. -/
theorem C2_counterexample :
    submitError (submit_interview_response exState3 "sid" 1 none 101) =
      some "Interview session sid not found" ∧
    currOf (submitSkipSeq exState3 "sid" [(1, 101)]) "sid" = some 0 ∧
    currOf (submitSkipSeq exState3 "sid" [(1, 101), (0, 102)]) "sid" = some 0 ∧
    (0 : Nat) ≠ 1 + 1 := by decide

/-- C3: completion exactness holds in the running program, degenerately —
under Python's real method resolution submit never records a response,
never advances the counter and never changes the status (every call
raises not-found, C1's defect), so for a session created by the
interview flow (counter 0, empty response list, status `active`, at
least one question) and any sequence of submit calls, the stored counter
still equals the count of distinct answered indices (both 0), and the
session has status `completed` exactly iff responses exist for all `k`
indices — both sides remaining false forever (equivalently, exactly when
the counter equals `k`, likewise never). -/
theorem C3_completion_exactness_degenerate (st : DMState) (sid : String) (s : Session)
    (subs : List (Nat × Nat))
    (hmiss : lookupA st.practiceSessions sid = none)
    (hs : sessionAt st sid = some s)
    (hcur : s.current_question = 0) (hresp : s.responses = [])
    (hstatus : s.status = "active") (hk : 1 ≤ s.questions.length) :
    ∃ s', sessionAt (submitSkipSeq st sid subs) sid = some s' ∧
      s'.current_question = (distinctRespIndices s'.responses).length ∧
      ((s'.status = "completed") ↔
        (∀ i < s'.questions.length, ∃ r ∈ s'.responses, r.question_index = i)) ∧
      ((s'.status = "completed") ↔ s'.current_question = s'.questions.length) := by
  rw [submitSkipSeq_miss sid subs st hmiss]
  have hne : ("active" : String) ≠ "completed" := by decide
  refine ⟨s, hs, ?_, ?_, ?_⟩
  · rw [hcur, hresp]
    rfl
  · rw [hstatus, hresp]
    constructor
    · intro h
      exact absurd h hne
    · intro hall
      obtain ⟨r, hr, _⟩ := hall 0 (by omega)
      exact absurd hr (List.not_mem_nil r)
  · rw [hstatus, hcur]
    constructor
    · intro h
      exact absurd h hne
    · intro h0
      omega

/-- Witness for C3 at a concrete input: the stored three-question session
with submissions for indices 0, 1 and 2. -/
theorem C3_completion_exactness_degenerate_witness :
    ∃ s', sessionAt (submitSkipSeq exState3 "sid" [(0, 101), (1, 102), (2, 103)]) "sid" =
        some s' ∧
      s'.current_question = (distinctRespIndices s'.responses).length ∧
      ((s'.status = "completed") ↔
        (∀ i < s'.questions.length, ∃ r ∈ s'.responses, r.question_index = i)) ∧
      ((s'.status = "completed") ↔ s'.current_question = s'.questions.length) :=
  C3_completion_exactness_degenerate exState3 "sid" ((sessionAt exState3 "sid").getD {})
    [(0, 101), (1, 102), (2, 103)] (by decide) (by decide) (by decide) (by decide)
    (by decide) (by decide)


/-- C4: the claimed replace-in-place behaviour is the evident intent of
`add_session_response` (data_manager.py:495-517, with its log lines
"Updated/Added response for question ..."), but that code is dead for
interview sessions: the method's opening `self.get_session` (py:481)
resolves to the later, practice-table `get_session` (py:678), so both
calls return `False` and leave the state — the session's stored response
list included — completely unchanged; no entry for the index is ever
created, let alone replaced in place. -/
theorem C4_add_session_response_dead (st : DMState) (sid : String) (qi : Nat)
    (t1 t2 : String) (n1 n2 : Nat) (hmiss : lookupA st.practiceSessions sid = none) :
    DataManager.add_session_response st sid qi t1 n1 = (false, st) ∧
    DataManager.add_session_response
      (DataManager.add_session_response st sid qi t1 n1).2 sid qi t2 n2 = (false, st) ∧
    responsesOf (DataManager.add_session_response
      (DataManager.add_session_response st sid qi t1 n1).2 sid qi t2 n2).2 sid =
      responsesOf st sid := by
  have h1 := add_session_response_miss st sid qi t1 n1 hmiss
  refine ⟨h1, ?_, ?_⟩
  · rw [h1]
    exact add_session_response_miss st sid qi t2 n2 hmiss
  · rw [h1, add_session_response_miss st sid qi t2 n2 hmiss]

/-- Witness for C4 at a concrete input: linking transcripts `"t1"` then
`"t2"` at index 0 of the stored three-question session. -/
theorem C4_add_session_response_dead_witness :
    DataManager.add_session_response exState3 "sid" 0 "t1" 101 = (false, exState3) ∧
    DataManager.add_session_response
      (DataManager.add_session_response exState3 "sid" 0 "t1" 101).2 "sid" 0 "t2" 102 =
      (false, exState3) ∧
    responsesOf (DataManager.add_session_response
      (DataManager.add_session_response exState3 "sid" 0 "t1" 101).2 "sid" 0 "t2" 102).2
      "sid" = responsesOf exState3 "sid" :=
  C4_add_session_response_dead exState3 "sid" 0 "t1" "t2" 101 102 (by decide)


theorem countP_map_preserving (l : List ResultRow) (f : ResultRow → ResultRow)
    (p : ResultRow → Bool) (hf : ∀ r, p (f r) = p r) :
    (l.map f).countP p = l.countP p := by
  induction l with
  | nil => rfl
  | cons a t ih => simp [List.countP_cons, hf, ih]

theorem upsert_result_countP (rows : List ResultRow) (sid : String) (record : ResultRecord)
    (now : Nat) (freshId : String) :
    (DataManager.upsert_result rows sid record now freshId).countP
      (fun r => r.session_id == sid) =
      max (rows.countP (fun r => r.session_id == sid)) 1 := by
  by_cases hany : rows.any (fun r => r.session_id == sid)
  · rw [DataManager.upsert_result, if_pos hany]
    have hpos : 0 < rows.countP (fun r => r.session_id == sid) := by
      obtain ⟨r, hr, hp⟩ := List.any_eq_true.1 hany
      exact List.countP_pos_iff.2 ⟨r, hr, hp⟩
    rw [countP_map_preserving]
    · omega
    · intro r
      by_cases hcase : r.session_id = sid
      · simp [hcase]
      · simp [hcase]
  · rw [DataManager.upsert_result, if_neg hany]
    have hzero : rows.countP (fun r => r.session_id == sid) = 0 := by
      rw [List.countP_eq_zero]
      intro r hr
      intro hp
      exact hany (List.any_eq_true.2 ⟨r, hr, hp⟩)
    rw [List.countP_append, hzero]
    simp

theorem upsert_result_length_of_existing (rows : List ResultRow) (sid : String)
    (record : ResultRecord) (now : Nat) (freshId : String)
    (hany : rows.any (fun r => r.session_id == sid) = true) :
    (DataManager.upsert_result rows sid record now freshId).length = rows.length := by
  rw [DataManager.upsert_result, if_pos hany, List.length_map]

theorem persist_countP (rows : List ResultRow) (sid : String) (session : Session)
    (scored : List ScoredResponse) (avg : ℚ) (now : Nat) (freshId : String) :
    (persist_completed_session rows sid session scored avg now freshId).countP
      (fun r => r.session_id == sid) =
      max (rows.countP (fun r => r.session_id == sid)) 1 := by
  unfold persist_completed_session
  exact upsert_result_countP ..

/-- C5: at most one Result row per session id is an invariant of
`upsert_result`, and finalizing (persisting) the same completed session
twice leaves exactly one row for it — the second call goes through the
`UPDATE` branch and does not change the table's length. -/
theorem C5_result_upsert_invariant (rows : List ResultRow) (sid : String)
    (session : Session) (scored : List ScoredResponse) (avg : ℚ) (now1 now2 : Nat)
    (id1 id2 : String) (h : rows.countP (fun r => r.session_id == sid) ≤ 1) :
    (∀ (record : ResultRecord) (now : Nat) (freshId : String),
      (DataManager.upsert_result rows sid record now freshId).countP
        (fun r => r.session_id == sid) ≤ 1) ∧
    (persist_completed_session rows sid session scored avg now1 id1).countP
      (fun r => r.session_id == sid) = 1 ∧
    (persist_completed_session (persist_completed_session rows sid session scored avg now1 id1)
      sid session scored avg now2 id2).countP (fun r => r.session_id == sid) = 1 ∧
    (persist_completed_session (persist_completed_session rows sid session scored avg now1 id1)
      sid session scored avg now2 id2).length =
      (persist_completed_session rows sid session scored avg now1 id1).length := by
  have h1 := persist_countP rows sid session scored avg now1 id1
  have hc1 : (persist_completed_session rows sid session scored avg now1 id1).countP
      (fun r => r.session_id == sid) = 1 := by omega
  refine ⟨?_, hc1, ?_, ?_⟩
  · intro record now freshId
    rw [upsert_result_countP]
    omega
  · rw [persist_countP, hc1]
    simp
  · have hany : (persist_completed_session rows sid session scored avg now1 id1).any
        (fun r => r.session_id == sid) = true := by
      rw [List.any_eq_true]
      have := List.countP_pos_iff.1 (by omega : 0 <
        (persist_completed_session rows sid session scored avg now1 id1).countP
          (fun r => r.session_id == sid))
      obtain ⟨r, hr, hp⟩ := this
      exact ⟨r, hr, hp⟩
    unfold persist_completed_session
    exact upsert_result_length_of_existing _ sid _ now2 id2 hany

/-- Witness for C5 at a concrete input: an empty results table. -/
theorem C5_result_upsert_invariant_witness :
    (∀ (record : ResultRecord) (now : Nat) (freshId : String),
      (DataManager.upsert_result [] "s" record now freshId).countP
        (fun r => r.session_id == "s") ≤ 1) ∧
    (persist_completed_session [] "s" {} [] 0 11 "id1").countP
      (fun r => r.session_id == "s") = 1 ∧
    (persist_completed_session (persist_completed_session [] "s" {} [] 0 11 "id1")
      "s" {} [] 0 12 "id2").countP (fun r => r.session_id == "s") = 1 ∧
    (persist_completed_session (persist_completed_session [] "s" {} [] 0 11 "id1")
      "s" {} [] 0 12 "id2").length =
      (persist_completed_session [] "s" {} [] 0 11 "id1").length :=
  C5_result_upsert_invariant [] "s" {} [] 0 11 12 "id1" "id2" (by decide)

/-- C7 (amended): when finalize writes a Result for a session id that
already has a row, the `UPDATE` rewrites the row's answers, feedback,
scores, summary, candidate/interview fields, timestamp, updated-time AND
`status` — the status is taken from the incoming record
(`record.get("status", "pending")`, which finalize always sets to
`completed`) rather than preserved; only the row id and created-time
survive. -/
theorem C7_update_rewrites_status (rows : List ResultRow) (sid : String) (session : Session)
    (scored : List ScoredResponse) (avg : ℚ) (now : Nat) (freshId : String)
    (row : ResultRow) (hmem : row ∈ rows) (hsid : row.session_id = sid) :
    ∃ row', row' ∈ persist_completed_session rows sid session scored avg now freshId ∧
      row'.id = row.id ∧ row'.created_at = row.created_at ∧
      row'.status = "completed" ∧ row'.updated_at = now := by
  have hany : rows.any (fun r => r.session_id == sid) = true :=
    List.any_eq_true.2 ⟨row, hmem, by simp [hsid]⟩
  simp only [persist_completed_session, DataManager.upsert_result, hany, if_pos]
  refine ⟨_, List.mem_map_of_mem _ hmem, ?_⟩
  simp [hsid]

/-- Witness for C7 at a concrete input: the fixture table whose single
row for session `"s"` carries the administrator-set status `"reviewed"`. -/
theorem C7_update_rewrites_status_witness :
    ∃ row', row' ∈ persist_completed_session exReviewedRows "s" {} [] 0 9 "fresh" ∧
      row'.id = (exReviewedRows.headD {}).id ∧
      row'.created_at = (exReviewedRows.headD {}).created_at ∧
      row'.status = "completed" ∧ row'.updated_at = 9 :=
  C7_update_rewrites_status exReviewedRows "s" {} [] 0 9 "fresh" (exReviewedRows.headD {})
    (by decide) (by decide)

/-- Counterexample to C7 as stated: the fixture row for session `"s"` has
status `"reviewed"`; after finalize persists that session, the row's
status reads `"completed"` — the existing status was overwritten, not
preserved. -/
theorem C7_counterexample :
    exReviewedRows.map (fun r => r.status) = ["reviewed"] ∧
    (persist_completed_session exReviewedRows "s" {} [] 0 9 "fresh").map
      (fun r => r.status) = ["completed"] ∧
    ("completed" : String) ≠ "reviewed" := by decide

theorem natDecimalAux_eq (fuel : Nat) : ∀ n : Nat, n ≤ fuel →
    natDecimalAux fuel n = ((Nat.digits 10 n).map Nat.digitChar).reverse := by
  induction fuel with
  | zero =>
    intro n h
    have hn : n = 0 := by omega
    subst hn
    simp [natDecimalAux]
  | succ f ih =>
    intro n h
    by_cases hn : n = 0
    · subst hn
      simp [natDecimalAux]
    · have hdiv : n / 10 < n := Nat.div_lt_self (Nat.pos_of_ne_zero hn) (by norm_num)
      rw [natDecimalAux, if_neg hn,
        Nat.digits_def' (by norm_num : (1 : Nat) < 10) (Nat.pos_of_ne_zero hn),
        List.map_cons, List.reverse_cons, ih (n / 10) (by omega)]

theorem digitChar_inj (a b : Nat) (ha : a < 10) (hb : b < 10)
    (h : Nat.digitChar a = Nat.digitChar b) : a = b := by
  interval_cases a <;> interval_cases b <;> revert h <;> decide

theorem map_digitChar_inj : ∀ (l m : List Nat), (∀ x ∈ l, x < 10) → (∀ x ∈ m, x < 10) →
    l.map Nat.digitChar = m.map Nat.digitChar → l = m := by
  intro l
  induction l with
  | nil =>
    intro m _ _ h
    cases m with
    | nil => rfl
    | cons b bs => simp at h
  | cons a as ih =>
    intro m hl hm h
    cases m with
    | nil => simp at h
    | cons b bs =>
      simp only [List.map_cons, List.cons.injEq] at h
      obtain ⟨h1, h2⟩ := h
      have hab := digitChar_inj a b (hl a (by simp)) (hm b (by simp)) h1
      rw [hab, ih bs (fun x hx => hl x (by simp [hx])) (fun x hx => hm x (by simp [hx])) h2]

theorem asString_inj (l m : List Char) (h : l.asString = m.asString) : l = m := by
  have := congrArg String.data h
  simpa [List.asString] using this

theorem natDecimal_injective : Function.Injective natDecimal := by
  intro a b h
  unfold natDecimal at h
  rw [natDecimalAux_eq a a le_rfl, natDecimalAux_eq b b le_rfl] at h
  by_cases ha : a = 0 <;> by_cases hb : b = 0
  · omega
  · rw [if_pos ha, if_neg hb] at h
    have h2 := congrArg String.data h
    have hd : (['0'] : List Char) = ((Nat.digits 10 b).map Nat.digitChar).reverse := by
      simpa [List.asString] using h2
    have : (Nat.digits 10 b).map Nat.digitChar = ['0'] := by
      have := congrArg List.reverse hd
      simpa using this.symm
    obtain ⟨d, hds⟩ : ∃ d, Nat.digits 10 b = [d] := by
      cases hdig : Nat.digits 10 b with
      | nil => rw [hdig] at this; simp at this
      | cons x xs =>
        cases xs with
        | nil => exact ⟨x, rfl⟩
        | cons y ys => rw [hdig] at this; simp at this
    rw [hds] at this
    simp only [List.map_cons, List.map_nil, List.cons.injEq] at this
    have hd10 : d < 10 :=
      Nat.digits_lt_base (by norm_num) (by rw [hds]; exact List.mem_singleton.2 rfl)
    have hd0 : d = 0 := digitChar_inj d 0 hd10 (by norm_num) (by simpa using this.1)
    have := Nat.ofDigits_digits 10 b
    rw [hds, hd0] at this
    simp [Nat.ofDigits] at this
    omega
  · rw [if_neg ha, if_pos hb] at h
    have h2 := congrArg String.data h.symm
    have hd : (['0'] : List Char) = ((Nat.digits 10 a).map Nat.digitChar).reverse := by
      simpa [List.asString] using h2
    have : (Nat.digits 10 a).map Nat.digitChar = ['0'] := by
      have := congrArg List.reverse hd
      simpa using this.symm
    obtain ⟨d, hds⟩ : ∃ d, Nat.digits 10 a = [d] := by
      cases hdig : Nat.digits 10 a with
      | nil => rw [hdig] at this; simp at this
      | cons x xs =>
        cases xs with
        | nil => exact ⟨x, rfl⟩
        | cons y ys => rw [hdig] at this; simp at this
    rw [hds] at this
    simp only [List.map_cons, List.map_nil, List.cons.injEq] at this
    have hd10 : d < 10 :=
      Nat.digits_lt_base (by norm_num) (by rw [hds]; exact List.mem_singleton.2 rfl)
    have hd0 : d = 0 := digitChar_inj d 0 hd10 (by norm_num) (by simpa using this.1)
    have := Nat.ofDigits_digits 10 a
    rw [hds, hd0] at this
    simp [Nat.ofDigits] at this
    omega
  · rw [if_neg ha, if_neg hb] at h
    have hd := asString_inj _ _ h
    have hmap : (Nat.digits 10 a).map Nat.digitChar = (Nat.digits 10 b).map Nat.digitChar :=
      List.reverse_injective hd
    have hdig : Nat.digits 10 a = Nat.digits 10 b :=
      map_digitChar_inj _ _ (fun x hx => Nat.digits_lt_base (by norm_num) hx)
        (fun x hx => Nat.digits_lt_base (by norm_num) hx) hmap
    exact Nat.digits_inj_iff.1 hdig

/-- C6 (amended): two `store_transcript` calls for the same session and
question index return distinct transcript ids exactly when their
whole-second timestamps differ — within the same second the f-string
`{session_id}_{question_index}_{int(timestamp)}` collides and the second
write replaces the first transcript file (see the counterexample). -/
theorem C6_transcript_id_collision_boundary (sid : String) (qi ts1 ts2 : Nat) :
    DataManager.mkTranscriptId sid qi ts1 = DataManager.mkTranscriptId sid qi ts2 ↔
      ts1 = ts2 := by
  constructor
  · intro h
    unfold DataManager.mkTranscriptId at h
    have hdata := congrArg String.data h
    simp only [String.data_append] at hdata
    have := List.append_cancel_left hdata
    exact natDecimal_injective (String.ext this)
  · intro h
    rw [h]

/-- Counterexample to C6 as stated: two successive `store_transcript`
calls for session `"s"`, question 0, in the same wall-clock second (100)
return the same id `"s_0_100"`, and the second call's payload replaces
the first one's file. -/
theorem C6_counterexample :
    (DataManager.store_transcript {} "s" 0 {} 100).2 =
      (DataManager.store_transcript (DataManager.store_transcript {} "s" 0 {} 100).1 "s" 0
        { transcript := "second answer" } 100).2 ∧
    DataManager.get_transcript
        (DataManager.store_transcript (DataManager.store_transcript {} "s" 0 {} 100).1 "s" 0
          { transcript := "second answer" } 100).1
        (DataManager.store_transcript {} "s" 0 {} 100).2 =
      some { transcript := "second answer", transcript_id := "s_0_100", session_id := "s",
             question_index := 0, created_at := 100 } := by decide

theorem fallback_scoring_bounds (t : String) :
    1 ≤ (fallback_scoring t).score ∧ (fallback_scoring t).score ≤ 10 := by
  simp only [fallback_scoring]
  split_ifs <;> constructor <;> norm_num

theorem parseEvalLine_bounds (pf : String → Option ℚ) (e : Evaluation) (line : String)
    (h1 : 1 ≤ e.score) (h2 : e.score ≤ 10) :
    1 ≤ (parseEvalLine pf e line).score ∧ (parseEvalLine pf e line).score ≤ 10 := by
  unfold parseEvalLine
  by_cases c1 : line.startsWith "Score:"
  · rw [if_pos c1]
    cases hpf : pf ((line.replace "Score:" "").trim) with
    | none => exact ⟨by norm_num, by norm_num⟩
    | some x =>
      refine ⟨le_max_left 1 _, max_le (by norm_num) ?_⟩
      exact min_le_left 10 x
  · rw [if_neg c1]
    by_cases c2 : line.startsWith "Feedback:"
    · rw [if_pos c2]
      exact ⟨h1, h2⟩
    · rw [if_neg c2]
      by_cases c3 : line.startsWith "Strengths:"
      · rw [if_pos c3]
        exact ⟨h1, h2⟩
      · rw [if_neg c3]
        by_cases c4 : line.startsWith "Areas for improvement:"
        · rw [if_pos c4]
          exact ⟨h1, h2⟩
        · rw [if_neg c4]
          exact ⟨h1, h2⟩

theorem foldl_parseEvalLine_bounds (pf : String → Option ℚ) (lines : List String) :
    ∀ (e : Evaluation), 1 ≤ e.score → e.score ≤ 10 →
      1 ≤ (lines.foldl (parseEvalLine pf) e).score ∧
      (lines.foldl (parseEvalLine pf) e).score ≤ 10 := by
  induction lines with
  | nil => intro e h1 h2; exact ⟨h1, h2⟩
  | cons l ls ih =>
    intro e h1 h2
    rw [List.foldl_cons]
    obtain ⟨g1, g2⟩ := parseEvalLine_bounds pf e l h1 h2
    exact ih (parseEvalLine pf e l) g1 g2

theorem evaluate_response_bounds (pf : String → Option ℚ) (oc : Option (Nat × String))
    (q t : String) :
    1 ≤ (evaluate_response_with_ai pf oc q t).score ∧
    (evaluate_response_with_ai pf oc q t).score ≤ 10 := by
  unfold evaluate_response_with_ai
  cases oc with
  | none => exact fallback_scoring_bounds _
  | some p =>
    obtain ⟨status, text⟩ := p
    by_cases hs : status == 200
    · simp only [hs, if_pos]
      exact foldl_parseEvalLine_bounds pf _ {} (by norm_num) (by norm_num)
    · simp only [hs, Bool.false_eq_true, if_false]
      exact fallback_scoring_bounds _

theorem length_le_sum_of_all_ge_one (l : List ℚ) (h : ∀ x ∈ l, 1 ≤ x) :
    (l.length : ℚ) ≤ l.sum := by
  induction l with
  | nil => simp
  | cons a tl ih =>
    simp only [List.length_cons, List.sum_cons]
    have ht := ih (fun x hx => h x (by simp [hx]))
    have ha := h a (by simp)
    push_cast
    linarith

theorem session_average_eq_zero_iff (l : List ℚ) (h : ∀ x ∈ l, 1 ≤ x) :
    session_average l = 0 ↔ l = [] := by
  unfold session_average
  by_cases hl : l.length = 0
  · simp [hl, List.length_eq_zero.1 hl]
  · rw [if_neg hl]
    have hlen : (0 : ℚ) < l.length := by
      have := Nat.pos_of_ne_zero hl
      exact_mod_cast this
    have hsum : (l.length : ℚ) ≤ l.sum := length_le_sum_of_all_ge_one l h
    have hpos : 0 < l.sum / l.length := div_pos (lt_of_lt_of_le hlen hsum) hlen
    constructor
    · intro h0
      rw [h0] at hpos
      exact absurd hpos (lt_irrefl 0)
    · intro h0
      subst h0
      simp at hl

/-- C8: for every provider behaviour (including errors and non-200
responses), every parse outcome of Python's `float(...)` and every
transcript (including the empty string and the skip sentinel), the
per-answer evaluator returns without raising and its score lies in
`[1, 10]` — the parsed value is clamped by `max(1, min(10, .))`, defaults
fall back to 5, and the word-count fallback yields 2/4/6/8/9; the value 0
therefore occurs only as the session-level average over zero scored
answers. -/
theorem C8_score_bounds (parseFloat : String → Option ℚ) (oc : Option (Nat × String))
    (q t : String) :
    (1 ≤ (evaluate_response_with_ai parseFloat oc q t).score ∧
      (evaluate_response_with_ai parseFloat oc q t).score ≤ 10) ∧
    ∀ items : List (String × String × Option (Nat × String)),
      (session_average (items.map (fun it =>
          (evaluate_response_with_ai parseFloat it.2.2 it.1 it.2.1).score)) = 0 ↔
        items = []) := by
  refine ⟨evaluate_response_bounds parseFloat oc q t, ?_⟩
  intro items
  rw [session_average_eq_zero_iff]
  · simp
  · intro x hx
    obtain ⟨it, _, hit⟩ := List.mem_map.1 hx
    rw [← hit]
    exact (evaluate_response_bounds parseFloat it.2.2 it.1 it.2.1).1

theorem fillQuestionsAux_length_ge (kws : List String) (n : Nat) :
    ∀ (fuel : Nat) (acc : List QuestionRecord), n - acc.length ≤ fuel →
      n ≤ (fillQuestionsAux kws n fuel acc).length := by
  intro fuel
  induction fuel with
  | zero =>
    intro acc h
    simp only [fillQuestionsAux]
    omega
  | succ f ih =>
    intro acc h
    simp only [fillQuestionsAux]
    by_cases hlt : acc.length < n
    · rw [if_pos hlt]
      exact ih _ (by simp only [List.length_append, List.length_cons, List.length_nil]; omega)
    · rw [if_neg hlt]
      omega

theorem take_fillQuestions_length (kws : List String) (n : Nat)
    (acc : List QuestionRecord) : ((fillQuestions kws n acc).take n).length = n := by
  rw [List.length_take]
  have := fillQuestionsAux_length_ge kws n (n - acc.length) acc le_rfl
  unfold fillQuestions
  omega

theorem generate_questions_locally_length (jd : Option String) (n : Nat)
    (role : Option String) : (generate_questions_locally jd n role).length = n := by
  unfold generate_questions_locally
  exact take_fillQuestions_length ..

/-- C9 (amended): with the generative provider always erroring,
`build_questions_payload` never fails outward when a non-empty job role
or job description is supplied: it returns exactly `min(n, 20)` questions
(the requested count is silently capped at 20 by
`desired_question_count`) built by keyword-template substitution and
tagged `source = "fallback"` / `used_fallback = True`; conversely, an
error is raised only when both the job role and the (possibly inferred)
job description are missing or empty. -/
theorem C9_fallback_never_fails (messagesArg : Option (List String))
    (prompt jd role : Option String) (n : Int) (modelName reason : String) (now : Nat)
    (hn : 0 < n) :
    ((∃ r, role = some r ∧ r ≠ "") ∨ (∃ d, jd = some d ∧ d ≠ "") →
      ∃ p, build_questions_payload_provider_down messagesArg prompt jd role (some n)
          modelName reason now = .ok p ∧
        p.questions.length = min n.toNat 20 ∧ p.source = "fallback" ∧
        p.used_fallback = true ∧ p.fallback_reason = some reason) ∧
    (∀ e, build_questions_payload_provider_down messagesArg prompt jd role (some n)
        modelName reason now = .error e →
      pyFalsyOptStr role = true ∧
      pyFalsyOptStr (if pyFalsyOptStr jd then
        infer_job_description prompt (formatted_messages messagesArg prompt) else jd) = true) := by
  have hd : desired_question_count (some n) = min n 20 := by
    simp [desired_question_count, hn]
  have hpos : ¬ (desired_question_count (some n) ≤ 0) := by
    rw [hd]
    omega
  constructor
  · intro hctx
    have hrole_or : pyFalsyOptStr role = false ∨
        pyFalsyOptStr (if pyFalsyOptStr jd then
          infer_job_description prompt (formatted_messages messagesArg prompt) else jd)
          = false := by
      rcases hctx with ⟨r, hr, hr0⟩ | ⟨d, hdj, hd0⟩
      · left
        subst hr
        simpa [pyFalsyOptStr] using hr0
      · right
        subst hdj
        have : pyFalsyOptStr (some d) = false := by simpa [pyFalsyOptStr] using hd0
        rw [if_neg (by simp [this])]
        exact this
    have hnotnone : ¬ ((if pyFalsyOptStr jd then
        infer_job_description prompt (formatted_messages messagesArg prompt) else jd)
          = none ∧ role = none) := by
      rintro ⟨hjd, hrl⟩
      rcases hrole_or with hfalse | hfalse
      · rw [hrl] at hfalse
        simp [pyFalsyOptStr] at hfalse
      · rw [hjd] at hfalse
        simp [pyFalsyOptStr] at hfalse
    have hcond2 : ¬ ((pyFalsyOptStr (if pyFalsyOptStr jd then
        infer_job_description prompt (formatted_messages messagesArg prompt) else jd) &&
        pyFalsyOptStr role &&
        (formatted_messages messagesArg prompt).isEmpty && pyFalsyOptStr prompt) = true) := by
      rcases hrole_or with hfalse | hfalse
      · simp [hfalse]
      · simp [hfalse]
    simp only [build_questions_payload_provider_down]
    rw [if_neg hpos, if_neg hcond2, if_neg (by simpa using hnotnone)]
    refine ⟨_, rfl, ?_, rfl, rfl, rfl⟩
    rw [generate_questions_locally_length, hd]
    omega
  · intro e herr
    simp only [build_questions_payload_provider_down] at herr
    rw [if_neg hpos] at herr
    by_cases hcond2 : (pyFalsyOptStr (if pyFalsyOptStr jd then
        infer_job_description prompt (formatted_messages messagesArg prompt) else jd) &&
        pyFalsyOptStr role &&
        (formatted_messages messagesArg prompt).isEmpty && pyFalsyOptStr prompt) = true
    · simp only [Bool.and_eq_true] at hcond2
      exact ⟨hcond2.1.1.2, hcond2.1.1.1⟩
    · rw [if_neg hcond2] at herr
      by_cases hcond3 : ((if pyFalsyOptStr jd then
          infer_job_description prompt (formatted_messages messagesArg prompt) else jd)
            = none ∧ role = none)
      · rw [hcond3.1, hcond3.2]
        exact ⟨rfl, rfl⟩
      · rw [if_neg (by simpa using hcond3)] at herr
        exact absurd herr (by simp)

/-- Witness for C9 at a concrete input: three questions requested for a
`"Backend Engineer"` role with the provider down. -/
theorem C9_fallback_never_fails_witness :
    ((∃ r, (some "Backend Engineer" : Option String) = some r ∧ r ≠ "") ∨
      (∃ d, (none : Option String) = some d ∧ d ≠ "") →
      ∃ p, build_questions_payload_provider_down none none none (some "Backend Engineer")
          (some 3) "gemma3:27b" "provider down" 0 = .ok p ∧
        p.questions.length = min (3 : Int).toNat 20 ∧ p.source = "fallback" ∧
        p.used_fallback = true ∧ p.fallback_reason = some "provider down") ∧
    (∀ e, build_questions_payload_provider_down none none none (some "Backend Engineer")
        (some 3) "gemma3:27b" "provider down" 0 = .error e →
      pyFalsyOptStr (some "Backend Engineer") = true ∧
      pyFalsyOptStr (if pyFalsyOptStr (none : Option String) then
        infer_job_description none (formatted_messages none none)
        else (none : Option String)) = true) :=
  C9_fallback_never_fails none none none (some "Backend Engineer") 3 "gemma3:27b"
    "provider down" 0 (by decide)

/-- Counterexample to C9 as stated: requesting `n = 25` questions with a
valid role and the provider down yields 20 questions, not 25 —
`desired_question_count` caps the requested count at 20. -/
theorem C9_counterexample :
    questionCountOf (build_questions_payload_provider_down none none none
      (some "Backend Engineer") (some 25) "gemma3:27b" "provider down" 0) = some 20 ∧
    (20 : Nat) ≠ 25 := by decide

end InterviewCoach
